import Mathlib

/-!
Verification development for the parallax background engine
(`js/parallax.js` — class `SimpleParallax`, and `js/effect-manager.js` —
class `EffectManager`).

JS numbers are modelled as rationals (`ℚ`); the engine's geometry and input
arithmetic is plain field arithmetic, so `ℚ` is an exact model of the ideal
real-number semantics the code computes with.  The single transcendental
call, `Math.tan(THREE.MathUtils.degToRad(45/2))`, is an external math-library
call and is threaded through as an explicit parameter `tanHalfFov`; every
modelled function uses the parameter in exactly the position where the source
calls `Math.tan`.  Depth rasters (`ImageData`) are byte arrays modelled as
functions `ℕ → ℕ` from flat index to byte value, with `data.length`
equal to `4 * width * height` as the `ImageData` contract guarantees.
-/

namespace Parallax

/-- A 2-component vector of JS numbers (e.g. `focalPoint {x, y}`). -/
structure Vec2 where
  x : ℚ
  y : ℚ
deriving DecidableEq, Repr

/-- A 3-component vector of JS numbers (e.g. `mesh.position`). -/
structure Vec3 where
  x : ℚ
  y : ℚ
  z : ℚ
deriving DecidableEq, Repr

/-- A width/height pair (e.g. `baseGeometrySize`, `referenceViewport`). -/
structure Size2 where
  width : ℚ
  height : ℚ
deriving DecidableEq, Repr

/-- The `meshTransform` record tracked by `SimpleParallax`
(`{ scale, position: {x,y,z}, baseGeometrySize: {width,height} }`). -/
structure MeshTransform where
  scale : ℚ
  position : Vec3
  baseGeometrySize : Size2
deriving DecidableEq, Repr

/-- `positionMeshByFocalPoint(finalScale, visibleWidth, visibleHeight)`
(parallax.js lines 822-838): computes the mesh position from the focal point
and the overflow of the scaled mesh beyond the visible area.
`geomW`/`geomH` are `this.mesh.geometry.parameters.width/height`. -/
def positionMeshByFocalPoint (geomW geomH finalScale visibleWidth visibleHeight : ℚ)
    (focalPoint : Vec2) : Vec3 :=
  let scaledMeshWidth := geomW * finalScale
  let scaledMeshHeight := geomH * finalScale
  let overflowX := scaledMeshWidth - visibleWidth
  let overflowY := scaledMeshHeight - visibleHeight
  let offsetX := (1/2 - focalPoint.x) * overflowX
  let offsetY := (1/2 - focalPoint.y) * overflowY
  ⟨offsetX, offsetY, 0⟩

/-- The live mesh transform computed by `createMesh()` (parallax.js lines
736-768) and recorded by `updateMeshTransform(finalScale)`:
aspect-comparison selection of the cover-fit scale, `extraScale` margin,
and focal-point positioning.  `cameraAspect` is `this.camera.aspect`
(set to `window.innerWidth / window.innerHeight` at init and on resize);
`cameraPositionZ` is `this.camera.position.z`; `tanHalfFov` stands for
`Math.tan(THREE.MathUtils.degToRad(45/2))`. -/
def createMeshTransform (windowWidth windowHeight depthW depthH geomW geomH
    cameraAspect cameraPositionZ tanHalfFov extraScale : ℚ)
    (focalPoint : Vec2) : MeshTransform :=
  let containerAspect := windowWidth / windowHeight
  let imageAspect := depthW / depthH
  let visibleHeight := 2 * tanHalfFov * cameraPositionZ
  let visibleWidth := visibleHeight * cameraAspect
  let baseScale := if containerAspect > imageAspect then visibleWidth / geomW
                   else visibleHeight / geomH
  let finalScale := baseScale * extraScale
  { scale := finalScale
    position := positionMeshByFocalPoint geomW geomH finalScale visibleWidth visibleHeight focalPoint
    baseGeometrySize := ⟨geomW, geomH⟩ }

/-- `cacheCanonicalTransform()` (parallax.js lines 1140-1178): recomputes the
same cover-fit transform against the config-declared `referenceViewport`
instead of the live window, and caches it.  Returns `none` when no
`referenceViewport` is configured (the source early-returns, leaving the
cache untouched).  Here `visibleWidth` is `visibleHeight * containerAspect`
with `containerAspect = REFERENCE_WIDTH / REFERENCE_HEIGHT`. -/
def cacheCanonicalTransform (referenceViewport : Option Size2)
    (depthW depthH geomW geomH cameraPositionZ tanHalfFov extraScale : ℚ)
    (focalPoint : Vec2) : Option MeshTransform :=
  match referenceViewport with
  | none => none
  | some ref =>
    let refWidth := ref.width
    let refHeight := ref.height
    let containerAspect := refWidth / refHeight
    let imageAspect := depthW / depthH
    let visibleHeight := 2 * tanHalfFov * cameraPositionZ
    let visibleWidth := visibleHeight * containerAspect
    let baseScale := if containerAspect > imageAspect then visibleWidth / geomW
                     else visibleHeight / geomH
    let finalScale := baseScale * extraScale
    let scaledMeshWidth := geomW * finalScale
    let scaledMeshHeight := geomH * finalScale
    let overflowX := scaledMeshWidth - visibleWidth
    let overflowY := scaledMeshHeight - visibleHeight
    let offsetX := (1/2 - focalPoint.x) * overflowX
    let offsetY := (1/2 - focalPoint.y) * overflowY
    some { scale := finalScale
           position := ⟨offsetX, offsetY, 0⟩
           baseGeometrySize := ⟨geomW, geomH⟩ }

/-- C1: the cached canonical transform is the live transform formula with the
reference viewport dimensions substituted for the actual window dimensions:
for every depth raster, geometry size, focal point, `extraScale` and camera
distance, `cacheCanonicalTransform` uses the same aspect-comparison scale
selection and `(0.5 - focalPoint) * overflow` offset as `createMesh`, so when
the reference width/height equal the current window width/height (and the
camera aspect is the window aspect, as `init`/`resize` maintain) the canonical
transform is identical to the live `meshTransform`. -/
theorem canonical_transform_matches_live
    (windowWidth windowHeight depthW depthH geomW geomH
      cameraAspect cameraPositionZ tanHalfFov extraScale : ℚ)
    (focalPoint : Vec2) (refViewport : Size2)
    (haspect : cameraAspect = windowWidth / windowHeight)
    (hW : refViewport.width = windowWidth)
    (hH : refViewport.height = windowHeight) :
    cacheCanonicalTransform (some refViewport) depthW depthH geomW geomH
        cameraPositionZ tanHalfFov extraScale focalPoint
      = some (createMeshTransform windowWidth windowHeight depthW depthH geomW geomH
          cameraAspect cameraPositionZ tanHalfFov extraScale focalPoint) := by
  obtain ⟨rw, rh⟩ := refViewport
  simp only at hW hH
  subst hW hH haspect
  rfl

/-- Witness for C1 at a concrete input: reference viewport 1920×1080 equal to
the window, depth raster 1600×900, unit-height geometry, camera at z = 4,
`extraScale = 1.2`, centered focal point. -/
theorem canonical_transform_matches_live_witness :
    cacheCanonicalTransform (some ⟨1920, 1080⟩) 1600 900 (16/9) 1 4 (2071/5000) (6/5) ⟨1/2, 1/2⟩
      = some (createMeshTransform 1920 1080 1600 900 (16/9) 1 (1920/1080) 4 (2071/5000) (6/5) ⟨1/2, 1/2⟩) :=
  canonical_transform_matches_live 1920 1080 1600 900 (16/9) 1 (1920/1080) 4
    (2071/5000) (6/5) ⟨1/2, 1/2⟩ ⟨1920, 1080⟩ (by norm_num) (by norm_num) (by norm_num)

/-- C4: postcondition of the viewport-fit computation in `createMesh` /
`positionMeshByFocalPoint`: the mesh scale is the aspect-comparison ratio
times `extraScale`, the position per axis is `(0.5 - focalPoint.axis) *
(scaledMeshSize - visibleSize)`, and for `focalPoint = {0.5, 0.5}` the
offset is exactly `{0, 0}`. -/
theorem viewport_fit_postcondition
    (windowWidth windowHeight depthW depthH geomW geomH
      cameraAspect cameraPositionZ tanHalfFov extraScale : ℚ)
    (focalPoint : Vec2) :
    (createMeshTransform windowWidth windowHeight depthW depthH geomW geomH
        cameraAspect cameraPositionZ tanHalfFov extraScale focalPoint).scale
      = (if windowWidth / windowHeight > depthW / depthH
          then (2 * tanHalfFov * cameraPositionZ * cameraAspect) / geomW
          else (2 * tanHalfFov * cameraPositionZ) / geomH) * extraScale
    ∧ (createMeshTransform windowWidth windowHeight depthW depthH geomW geomH
        cameraAspect cameraPositionZ tanHalfFov extraScale focalPoint).position.x
      = (1/2 - focalPoint.x) *
          (geomW * (createMeshTransform windowWidth windowHeight depthW depthH geomW geomH
            cameraAspect cameraPositionZ tanHalfFov extraScale focalPoint).scale
            - 2 * tanHalfFov * cameraPositionZ * cameraAspect)
    ∧ (createMeshTransform windowWidth windowHeight depthW depthH geomW geomH
        cameraAspect cameraPositionZ tanHalfFov extraScale focalPoint).position.y
      = (1/2 - focalPoint.y) *
          (geomH * (createMeshTransform windowWidth windowHeight depthW depthH geomW geomH
            cameraAspect cameraPositionZ tanHalfFov extraScale focalPoint).scale
            - 2 * tanHalfFov * cameraPositionZ)
    ∧ (focalPoint = ⟨1/2, 1/2⟩ →
        (createMeshTransform windowWidth windowHeight depthW depthH geomW geomH
          cameraAspect cameraPositionZ tanHalfFov extraScale focalPoint).position
          = ⟨0, 0, 0⟩) := by
  refine ⟨?_, ?_, ?_, ?_⟩
  · simp only [createMeshTransform]
  · simp only [createMeshTransform, positionMeshByFocalPoint]
  · simp only [createMeshTransform, positionMeshByFocalPoint]
  · intro hfp
    subst hfp
    simp only [createMeshTransform, positionMeshByFocalPoint]
    norm_num

/-- Witness for C4 at a concrete input: viewport 1920×1080, depth raster
1600×900, geometry 16/9 × 1, `extraScale = 1.2`, focal point `{0.5, 0.5}`;
the centered focal point yields offset `{0, 0}`. -/
theorem viewport_fit_postcondition_witness :
    (createMeshTransform 1920 1080 1600 900 (16/9) 1 (16/9) 4 (2071/5000) (6/5) ⟨1/2, 1/2⟩).position
      = ⟨0, 0, 0⟩ :=
  (viewport_fit_postcondition 1920 1080 1600 900 (16/9) 1 (16/9) 4 (2071/5000) (6/5)
    ⟨1/2, 1/2⟩).2.2.2 rfl

/-! ### Per-frame input handling (`animate()`, parallax.js lines 978-1012) -/

/-- The engine fields read and written by the input-selection section of
`animate()` (parallax.js lines 992-1012). -/
structure AnimState where
  isLocked : Bool
  isMobile : Bool
  useOrientation : Bool
  orientationSupported : Bool
  mouseOnScreen : Bool
  orientationX : ℚ
  orientationY : ℚ
  mouseX : ℚ
  mouseY : ℚ
  targetX : ℚ
  targetY : ℚ
  minFocusFactor : ℚ
  maxFocusFactor : ℚ
  focus : ℚ
  baseMouseSensitivity : ℚ
  easing : ℚ
  returnToCenterEasing : ℚ
deriving DecidableEq, Repr

/-- The sensitivity factor `this.mouseSensitivityFocusFactor.min +
(this.mouseSensitivityFocusFactor.max - this.mouseSensitivityFocusFactor.min)
* 2 * this.focus` computed (twice, with the identical formula) in `animate()`
(parallax.js lines 995-996 and 1003-1004). -/
def sensitivityFactor (minF maxF focus : ℚ) : ℚ :=
  minF + (maxF - minF) * 2 * focus

/-- The input-selection step of `animate()` (parallax.js lines 992-1012):
orientation branch, mouse/touch branch (both scaled by the sensitivity
factor and `baseMouseSensitivity`, eased by `easing`), and the
return-to-center branch (eased by `returnToCenterEasing`). -/
def animateInputStep (s : AnimState) : AnimState :=
  if s.isLocked then s
  else if s.isMobile && s.useOrientation && s.orientationSupported then
    let mouseSensitivityFocusFactor :=
      s.minFocusFactor + (s.maxFocusFactor - s.minFocusFactor) * 2 * s.focus
    let orientationInputX := s.orientationX * mouseSensitivityFocusFactor * s.baseMouseSensitivity
    let orientationInputY := s.orientationY * mouseSensitivityFocusFactor * s.baseMouseSensitivity
    { s with targetX := s.targetX + (orientationInputX - s.targetX) * s.easing
             targetY := s.targetY + (orientationInputY - s.targetY) * s.easing }
  else if s.mouseOnScreen then
    let mouseSensitivityFocusFactor :=
      s.minFocusFactor + (s.maxFocusFactor - s.minFocusFactor) * 2 * s.focus
    { s with targetX := s.targetX +
               (mouseSensitivityFocusFactor * s.mouseX * s.baseMouseSensitivity - s.targetX) * s.easing
             targetY := s.targetY +
               (mouseSensitivityFocusFactor * s.mouseY * s.baseMouseSensitivity - s.targetY) * s.easing }
  else
    { s with targetX := s.targetX + (0 - s.targetX) * s.returnToCenterEasing
             targetY := s.targetY + (0 - s.targetY) * s.returnToCenterEasing }

/-- C3 counterexample: with the built-in defaults
`mouseSensitivityFocusFactor = {min: 0.3, max: 0.7}` and `focus = 1 ∈ [0,1]`,
the factor the code applies is `0.3 + (0.7 - 0.3) * 2 * 1 = 1.1`, which is
strictly greater than the configured `max = 0.7`: the claim that for every
focus in `[0,1]` the factor lies between min and max (reaching max at
`focus = 1`) is false.  The pointer branch of `animateInputStep` with
`mouseX = 1`, `baseMouseSensitivity = 1`, `easing = 1`, `targetX = 0`
produces `targetX = 1.1` directly. -/
theorem sensitivity_factor_counterexample :
    sensitivityFactor (3/10) (7/10) 1 = 11/10
    ∧ ¬ sensitivityFactor (3/10) (7/10) 1 ≤ 7/10
    ∧ (animateInputStep
        { isLocked := false, isMobile := false, useOrientation := false
          orientationSupported := false, mouseOnScreen := true
          orientationX := 0, orientationY := 0, mouseX := 1, mouseY := 0
          targetX := 0, targetY := 0
          minFocusFactor := 3/10, maxFocusFactor := 7/10, focus := 1
          baseMouseSensitivity := 1, easing := 1
          returnToCenterEasing := 2/25 }).targetX = 11/10 := by
  refine ⟨by norm_num [sensitivityFactor], by norm_num [sensitivityFactor], ?_⟩
  norm_num [animateInputStep]

/-- C3 (amended): the per-frame sensitivity factor is the affine function
`min + (max - min) * 2 * focus` of the focus parameter: it equals `min` at
`focus = 0`, equals `max` at `focus = 1/2`, and lies between `min` and `max`
for every `focus ∈ [0, 1/2]` (given `min ≤ max`); it exceeds `max` for
`focus > 1/2` when `min < max`.  The identical factor scales the active raw
input in both the orientation branch and the pointer/touch branch of
`animate()`. -/
theorem sensitivity_factor_amended (minF maxF focus : ℚ) (s : AnimState)
    (hmm : minF ≤ maxF) (h0 : 0 ≤ focus) (hhalf : focus ≤ 1/2) :
    (minF ≤ sensitivityFactor minF maxF focus
      ∧ sensitivityFactor minF maxF focus ≤ maxF)
    ∧ sensitivityFactor minF maxF 0 = minF
    ∧ sensitivityFactor minF maxF (1/2) = maxF
    ∧ (∀ f : ℚ, 1/2 < f → minF < maxF → maxF < sensitivityFactor minF maxF f)
    ∧ (s.isLocked = false → s.isMobile = true → s.useOrientation = true →
        s.orientationSupported = true →
        (animateInputStep s).targetX = s.targetX +
          (s.orientationX * sensitivityFactor s.minFocusFactor s.maxFocusFactor s.focus
            * s.baseMouseSensitivity - s.targetX) * s.easing
        ∧ (animateInputStep s).targetY = s.targetY +
          (s.orientationY * sensitivityFactor s.minFocusFactor s.maxFocusFactor s.focus
            * s.baseMouseSensitivity - s.targetY) * s.easing)
    ∧ (s.isLocked = false →
        (s.isMobile && s.useOrientation && s.orientationSupported) = false →
        s.mouseOnScreen = true →
        (animateInputStep s).targetX = s.targetX +
          (sensitivityFactor s.minFocusFactor s.maxFocusFactor s.focus * s.mouseX
            * s.baseMouseSensitivity - s.targetX) * s.easing
        ∧ (animateInputStep s).targetY = s.targetY +
          (sensitivityFactor s.minFocusFactor s.maxFocusFactor s.focus * s.mouseY
            * s.baseMouseSensitivity - s.targetY) * s.easing) := by
  refine ⟨⟨?_, ?_⟩, ?_, ?_, ?_, ?_, ?_⟩
  · simp only [sensitivityFactor]
    nlinarith
  · simp only [sensitivityFactor]
    nlinarith
  · simp only [sensitivityFactor]; ring
  · simp only [sensitivityFactor]; ring
  · intro f hf hlt
    simp only [sensitivityFactor]
    nlinarith
  · intro h1 h2 h3 h4
    simp only [animateInputStep, sensitivityFactor, h1, h2, h3, h4]
    norm_num
  · intro h1 h2 h3
    simp only [animateInputStep, sensitivityFactor, h1, h2, h3]
    norm_num

/-- Witness for the amended C3 at the built-in defaults
(`min = 0.3`, `max = 0.7`, `focus = 0.25`) and a concrete pointer-mode
state. -/
theorem sensitivity_factor_amended_witness :
    (3/10 : ℚ) ≤ sensitivityFactor (3/10) (7/10) (1/4)
      ∧ sensitivityFactor (3/10) (7/10) (1/4) ≤ 7/10 :=
  (sensitivity_factor_amended (3/10) (7/10) (1/4)
    { isLocked := false, isMobile := false, useOrientation := false
      orientationSupported := false, mouseOnScreen := true
      orientationX := 0, orientationY := 0, mouseX := 0, mouseY := 0
      targetX := 0, targetY := 0
      minFocusFactor := 3/10, maxFocusFactor := 7/10, focus := 1/4
      baseMouseSensitivity := 1/2, easing := 1/20
      returnToCenterEasing := 2/25 }
    (by norm_num) (by norm_num) (by norm_num)).1

/-! ### Device-orientation input (`handleDeviceOrientation`, parallax.js lines 505-570) -/

/-- Orientation configuration fields read by `handleDeviceOrientation`. -/
structure OrientationConfig where
  orientationSensitivity : ℚ
  orientationThreshold : ℚ
  orientationMaxAngle : ℚ
deriving DecidableEq, Repr

/-- The engine fields read and written by `handleDeviceOrientation`.
The baseline and the stored raw angles are `(beta, gamma)` pairs. -/
structure OrientationState where
  orientationBaseline : Option (ℚ × ℚ)
  orientationBaselineSamples : List (ℚ × ℚ)
  orientationDataReceived : Bool
  orientationX : ℚ
  orientationY : ℚ
  orientationAlpha : Option ℚ
  orientationBeta : Option ℚ
  orientationGamma : Option ℚ
  lastMouseMoveTime : ℚ
  mouseOnScreen : Bool
deriving DecidableEq, Repr

/-- Lines 535-569 of `handleDeviceOrientation` (the movement computation after
the baseline-initialization block): baseline-relative tilt, clamping to
`[-1, 1]` via `orientationMaxAngle`, beta fold-over at ±90°, the
`orientationThreshold / orientationMaxAngle` dead zone, and the
`orientationSensitivity` multiplier. -/
def applyOrientationMovement (cfg : OrientationConfig) (st : OrientationState)
    (alpha : Option ℚ) (beta gamma now : ℚ) : OrientationState :=
  let baselineBeta := match st.orientationBaseline with
    | some bl => bl.1
    | none => 0
  let baselineGamma := match st.orientationBaseline with
    | some bl => bl.2
    | none => 0
  let adjustedGamma := gamma - baselineGamma
  let normalizedX0 := max (-1) (min 1 (adjustedGamma / cfg.orientationMaxAngle))
  let adjustedBeta0 := beta - baselineBeta
  let adjustedBeta1 := if adjustedBeta0 > 90 then 180 - adjustedBeta0 else adjustedBeta0
  let adjustedBeta2 := if adjustedBeta1 < -90 then -180 - adjustedBeta1 else adjustedBeta1
  let normalizedY0 := max (-1) (min 1 (-adjustedBeta2 / cfg.orientationMaxAngle))
  let thresholdX := cfg.orientationThreshold / cfg.orientationMaxAngle
  let thresholdY := cfg.orientationThreshold / cfg.orientationMaxAngle
  let normalizedX := if |normalizedX0| < thresholdX then 0 else normalizedX0
  let normalizedY := if |normalizedY0| < thresholdY then 0 else normalizedY0
  { st with
    orientationAlpha := alpha
    orientationBeta := some beta
    orientationGamma := some gamma
    orientationX := normalizedX * cfg.orientationSensitivity
    orientationY := normalizedY * cfg.orientationSensitivity
    lastMouseMoveTime := now
    mouseOnScreen := true }

/-- `handleDeviceOrientation(event)` (parallax.js lines 505-570): skips null
beta/gamma, collects the first 8 samples into an averaged baseline (the 8th
sample both completes the baseline and falls through to the movement
computation), and otherwise computes baseline-relative movement.  `now` is
`Date.now()` at the event. -/
def handleDeviceOrientation (cfg : OrientationConfig) (st : OrientationState)
    (alpha beta gamma : Option ℚ) (now : ℚ) : OrientationState :=
  match beta, gamma with
  | some b, some g =>
    let st1 := { st with orientationDataReceived := true }
    match st1.orientationBaseline with
    | none =>
      let samples := st1.orientationBaselineSamples ++ [(b, g)]
      if samples.length < 8 then
        { st1 with orientationBaselineSamples := samples }
      else
        let sampleCount : ℚ := samples.length
        let avgBeta := (samples.map Prod.fst).sum
        let avgGamma := (samples.map Prod.snd).sum
        let st2 := { st1 with
          orientationBaseline := some (avgBeta / sampleCount, avgGamma / sampleCount)
          orientationBaselineSamples := [] }
        applyOrientationMovement cfg st2 alpha b g now
    | some _ => applyOrientationMovement cfg st st1.orientationAlpha b g now
  | _, _ => st

/-- C8: after baseline calibration (the first 8 orientation samples averaged
into the baseline), an orientation sample whose beta and gamma exactly equal
the baseline yields orientation motion exactly `{0, 0}`: the baseline-relative
tilt is zero and the `orientationThreshold / orientationMaxAngle` dead zone
(or the zero tilt itself) forces `orientationX = orientationY = 0`.  The
first conjunct checks the calibration itself: the 8th sample completes the
baseline with the average of the 8 collected samples. -/
theorem orientation_baseline_dead_zone (cfg : OrientationConfig)
    (st st7 : OrientationState) (alpha : Option ℚ) (bb bg b g now : ℚ)
    (hb : st.orientationBaseline = some (bb, bg))
    (h7none : st7.orientationBaseline = none)
    (h7len : st7.orientationBaselineSamples.length = 7) :
    (handleDeviceOrientation cfg st7 alpha (some b) (some g) now).orientationBaseline
      = some (((st7.orientationBaselineSamples ++ [(b, g)]).map Prod.fst).sum / 8,
              ((st7.orientationBaselineSamples ++ [(b, g)]).map Prod.snd).sum / 8)
    ∧ (handleDeviceOrientation cfg st alpha (some bb) (some bg) now).orientationX = 0
    ∧ (handleDeviceOrientation cfg st alpha (some bb) (some bg) now).orientationY = 0 := by
  refine ⟨?_, ?_, ?_⟩
  · simp only [handleDeviceOrientation, h7none, List.length_append, h7len,
      applyOrientationMovement]
    norm_num
  · simp only [handleDeviceOrientation, hb, applyOrientationMovement]
    norm_num
  · simp only [handleDeviceOrientation, hb, applyOrientationMovement]
    norm_num

/-- Witness for C8 at concrete inputs: default thresholds (5° dead zone, 30°
max angle, sensitivity 1), a calibrated state with baseline `(10, -5)` fed a
sample exactly equal to the baseline, and a 7-sample state fed its 8th
sample. -/
theorem orientation_baseline_dead_zone_witness :
    (handleDeviceOrientation ⟨1, 5, 30⟩
        { orientationBaseline := none
          orientationBaselineSamples := [(1, 1), (2, 2), (3, 3), (4, 4), (5, 5), (6, 6), (7, 7)]
          orientationDataReceived := true, orientationX := 0, orientationY := 0
          orientationAlpha := none, orientationBeta := none, orientationGamma := none
          lastMouseMoveTime := 0, mouseOnScreen := true }
        none (some 9) (some 9) 100).orientationBaseline
      = some ((([(1, 1), (2, 2), (3, 3), (4, 4), (5, 5), (6, 6), (7, 7)]
            ++ [((9 : ℚ), (9 : ℚ))]).map Prod.fst).sum / 8,
          (([(1, 1), (2, 2), (3, 3), (4, 4), (5, 5), (6, 6), (7, 7)]
            ++ [((9 : ℚ), (9 : ℚ))]).map Prod.snd).sum / 8)
    ∧ (handleDeviceOrientation ⟨1, 5, 30⟩
        { orientationBaseline := some (10, -5)
          orientationBaselineSamples := []
          orientationDataReceived := true, orientationX := 1/2, orientationY := 1/2
          orientationAlpha := none, orientationBeta := none, orientationGamma := none
          lastMouseMoveTime := 0, mouseOnScreen := true }
        none (some 10) (some (-5)) 100).orientationX = 0
    ∧ (handleDeviceOrientation ⟨1, 5, 30⟩
        { orientationBaseline := some (10, -5)
          orientationBaselineSamples := []
          orientationDataReceived := true, orientationX := 1/2, orientationY := 1/2
          orientationAlpha := none, orientationBeta := none, orientationGamma := none
          lastMouseMoveTime := 0, mouseOnScreen := true }
        none (some 10) (some (-5)) 100).orientationY = 0 :=
  orientation_baseline_dead_zone ⟨1, 5, 30⟩
    { orientationBaseline := some (10, -5)
      orientationBaselineSamples := []
      orientationDataReceived := true, orientationX := 1/2, orientationY := 1/2
      orientationAlpha := none, orientationBeta := none, orientationGamma := none
      lastMouseMoveTime := 0, mouseOnScreen := true }
    { orientationBaseline := none
      orientationBaselineSamples := [(1, 1), (2, 2), (3, 3), (4, 4), (5, 5), (6, 6), (7, 7)]
      orientationDataReceived := true, orientationX := 0, orientationY := 0
      orientationAlpha := none, orientationBeta := none, orientationGamma := none
      lastMouseMoveTime := 0, mouseOnScreen := true }
    none 10 (-5) 9 9 100 rfl rfl rfl

/-! ### Config loading (`applyConfig` lines 106-138, `loadConfig` lines 289-309) -/

/-- A `{min, max}` pair (the `mouseSensitivityFocusFactor` setting). -/
structure MinMax where
  min : ℚ
  max : ℚ
deriving DecidableEq, Repr

/-- The recognized `settings` keys, with the built-in default values given in
the `SimpleParallax` constructor (parallax.js lines 17-48).
`devicePixelRatio` is modelled in its plain numeric mode (the default config
sets the number `1.0`; for a finite numeric value `resolveDevicePixelRatio`
returns it unchanged, lines 152-154). -/
structure Settings where
  focus : ℚ
  baseMouseSensitivity : ℚ
  devicePixelRatio : ℚ
  expandDepthmapRadius : ℚ
  depthmapSize : ℚ
  meshDepth : ℚ
  easing : ℚ
  edgeWidth : ℚ
  cameraZ : ℚ
  extraScale : ℚ
  focalPoint : Vec2
  mouseSensitivityFocusFactor : MinMax
  idleTimeout : ℚ
  autoMovementSpeed : ℚ
  autoMovementRange : ℚ
  autoMovementEnabled : Bool
  autoMovementCircleSpeed : ℚ
  returnToCenterEasing : ℚ
  orientationSensitivity : ℚ
  orientationThreshold : ℚ
  orientationMaxAngle : ℚ
  orientationEnabled : Bool
  orientationFallbackToTouch : Bool
deriving DecidableEq, Repr

/-- The built-in default settings (constructor lines 17-48). -/
def defaultSettings : Settings where
  focus := 1/4
  baseMouseSensitivity := 1/2
  devicePixelRatio := 1
  expandDepthmapRadius := 7
  depthmapSize := 1024
  meshDepth := 1
  easing := 1/20
  edgeWidth := 1/50
  cameraZ := 7/5
  extraScale := 6/5
  focalPoint := ⟨1/2, 1/2⟩
  mouseSensitivityFocusFactor := ⟨3/10, 7/10⟩
  idleTimeout := 3000
  autoMovementSpeed := 3/10
  autoMovementRange := 1/2
  autoMovementEnabled := true
  autoMovementCircleSpeed := 1/1000
  returnToCenterEasing := 2/25
  orientationSensitivity := 1
  orientationThreshold := 5
  orientationMaxAngle := 30
  orientationEnabled := true
  orientationFallbackToTouch := true

/-- The derived instance settings of `SimpleParallax` that `applyConfig`
assigns.  A field holds `none` when the corresponding `this.<field>` is still
`undefined` (never assigned); fields the constructor itself initializes carry
their constructor value (lines 56, 82-85). -/
structure EngineSettings where
  focus : Option ℚ := none
  baseMouseSensitivity : Option ℚ := none
  devicePixelRatio : Option ℚ := none
  expandDepthmapRadius : Option ℚ := none
  depthmapSize : Option ℚ := none
  meshDepth : Option ℚ := none
  easing : ℚ := 1/20
  edgeWidth : Option ℚ := none
  cameraZ : Option ℚ := none
  extraScale : Option ℚ := none
  focalPoint : Option Vec2 := none
  mouseSensitivityFocusFactor : Option MinMax := none
  idleTimeout : ℚ := 3000
  autoMovementSpeed : ℚ := 3/10
  autoMovementRange : Option ℚ := none
  autoMovementEnabled : Bool := true
  autoMovementCircleSpeed : Option ℚ := none
  returnToCenterEasing : ℚ := 2/25
  orientationSensitivity : Option ℚ := none
  orientationThreshold : Option ℚ := none
  orientationMaxAngle : Option ℚ := none
  orientationEnabled : Option Bool := none
  orientationFallbackToTouch : Option Bool := none
deriving DecidableEq, Repr

/-- The engine's derived settings right after the constructor ran: only the
fields the constructor assigns are defined. -/
def engineAfterConstructor : EngineSettings := {}

/-- `applyConfig()` (parallax.js lines 106-138): copies `this.config.settings`
onto the derived instance fields, with the source's `||` falsy fallbacks
(`extraScale || 1.2`, `idleTimeout || 3000`, ...) and `!== false` boolean
defaults transcribed as zero/false tests. -/
def applyConfig (s : Settings) (e : EngineSettings) : EngineSettings :=
  { e with
    focus := some s.focus
    baseMouseSensitivity := some s.baseMouseSensitivity
    devicePixelRatio := some s.devicePixelRatio
    expandDepthmapRadius := some s.expandDepthmapRadius
    depthmapSize := some s.depthmapSize
    meshDepth := some s.meshDepth
    easing := s.easing
    edgeWidth := some s.edgeWidth
    cameraZ := some s.cameraZ
    extraScale := some (if s.extraScale = 0 then 6/5 else s.extraScale)
    focalPoint := some s.focalPoint
    mouseSensitivityFocusFactor := some s.mouseSensitivityFocusFactor
    idleTimeout := if s.idleTimeout = 0 then 3000 else s.idleTimeout
    autoMovementSpeed := if s.autoMovementSpeed = 0 then 3/10 else s.autoMovementSpeed
    autoMovementRange := some (if s.autoMovementRange = 0 then 1/2 else s.autoMovementRange)
    autoMovementEnabled := s.autoMovementEnabled
    autoMovementCircleSpeed :=
      some (if s.autoMovementCircleSpeed = 0 then 1/1000 else s.autoMovementCircleSpeed)
    returnToCenterEasing := if s.returnToCenterEasing = 0 then 2/25 else s.returnToCenterEasing
    orientationSensitivity := some s.orientationSensitivity
    orientationThreshold := some s.orientationThreshold
    orientationMaxAngle := some s.orientationMaxAngle
    orientationEnabled := some s.orientationEnabled
    orientationFallbackToTouch := some s.orientationFallbackToTouch }

/-- `loadConfig()` (parallax.js lines 289-309): when the fetch succeeds and
parses, the parsed config is merged over the defaults and `applyConfig()`
runs; when the fetch is not `ok` or fetch/parse throws, the method only logs
("using defaults") and returns — `applyConfig()` is **not** called on that
path. -/
def loadConfig (fetched : Option Settings) (e : EngineSettings) : EngineSettings :=
  match fetched with
  | some s => applyConfig s e
  | none => e

/-- C2 (code bug): with the config file missing (fetch not `ok`, modelled as
`fetched = none`), `loadConfig` leaves every derived setting that only
`applyConfig` assigns as `undefined` — not at its documented default —
because neither failure branch calls `applyConfig`.  E.g. `this.focus` and
`this.mouseSensitivityFocusFactor` stay `undefined` (so the very next
`animate()` frame would throw reading `.min`), while behaving "as if every
settings key had its default" would give `0.25` and `{0.3, 0.7}`.  The last
conjunct records the outright divergence between the two behaviors. -/
theorem config_fallback_code_bug :
    (loadConfig none engineAfterConstructor).focus = none
    ∧ (loadConfig none engineAfterConstructor).mouseSensitivityFocusFactor = none
    ∧ (loadConfig none engineAfterConstructor).extraScale = none
    ∧ (loadConfig none engineAfterConstructor).depthmapSize = none
    ∧ (loadConfig none engineAfterConstructor).expandDepthmapRadius = none
    ∧ (applyConfig defaultSettings engineAfterConstructor).focus = some (1/4)
    ∧ (applyConfig defaultSettings engineAfterConstructor).mouseSensitivityFocusFactor
        = some ⟨3/10, 7/10⟩
    ∧ (applyConfig defaultSettings engineAfterConstructor).extraScale = some (6/5)
    ∧ (applyConfig defaultSettings engineAfterConstructor).depthmapSize = some 1024
    ∧ (applyConfig defaultSettings engineAfterConstructor).expandDepthmapRadius = some 7
    ∧ loadConfig none engineAfterConstructor
        ≠ applyConfig defaultSettings engineAfterConstructor := by
  refine ⟨rfl, rfl, rfl, rfl, rfl, ?_, ?_, ?_, ?_, ?_, ?_⟩
  · simp [applyConfig, defaultSettings]
  · simp [applyConfig, defaultSettings]
  · simp [applyConfig, defaultSettings]
  · simp [applyConfig, defaultSettings]
  · simp [applyConfig, defaultSettings]
  · intro h
    have := congrArg EngineSettings.focus h
    simp [loadConfig, applyConfig, defaultSettings, engineAfterConstructor] at this

/-! ### Depth-map dilation (`expandDepthMap`, parallax.js lines 673-702)

An `ImageData` byte buffer is modelled as a function `ℕ → ℕ` from flat index
to byte value; the byte at channel `c` of pixel `(x, y)` sits at index
`(y * width + x) * 4 + c`, and `data.length = 4 * width * height`. -/

/-- The triple store `dst[nIdx] = dst[nIdx+1] = dst[nIdx+2] = v`
(parallax.js lines 691-693). -/
def write3 (d : ℕ → ℕ) (n v : ℕ) : ℕ → ℕ :=
  fun j => if j = n ∨ j = n + 1 ∨ j = n + 2 then v else d j

/-- The nine `(dy+1, dx+1)` values of the neighbor double loop
`for dy in -1..1, for dx in -1..1` (lines 687-688), in loop order. -/
def expandOffsets : List (ℕ × ℕ) :=
  [(0, 0), (0, 1), (0, 2), (1, 0), (1, 1), (1, 2), (2, 0), (2, 1), (2, 2)]

/-- The ordered `(index, value)` writes the interior pixel `(x, y)` issues in
one pass (lines 682-696): nothing if its depth is below the `10` noise floor,
otherwise a write of its depth into every one of the nine loop positions
whose depth in `src` (the previous pass's output) is strictly lower — the
center position `(dy, dx) = (0, 0)` never qualifies since `src idx < src idx`
is false.  All reads are from `src`. -/
def pixelWrites (w : ℕ) (src : ℕ → ℕ) (x y : ℕ) : List (ℕ × ℕ) :=
  let idx := (y * w + x) * 4
  let currentDepth := src idx
  if currentDepth < 10 then []
  else expandOffsets.filterMap (fun o =>
    let nIdx := ((y + o.1 - 1) * w + (x + o.2 - 1)) * 4
    if src nIdx < currentDepth then some (nIdx, currentDepth) else none)

/-- Apply a list of `(index, value)` triple-writes to a buffer in order
(last write to an index wins, as for the mutable `dst` array). -/
def applyWrites (d : ℕ → ℕ) (ws : List (ℕ × ℕ)) : ℕ → ℕ :=
  ws.foldl (fun d wv => write3 d wv.1 wv.2) d

/-- One dilation pass (the body of the `r` loop, lines 680-699): iterate the
interior pixels `y = 1 .. height-2` (outer), `x = 1 .. width-2` (inner) in
order, applying each pixel's writes to `dst`, which starts as a copy of
`src`; every read is from `src`. -/
def expandPass (w h : ℕ) (src : ℕ → ℕ) : ℕ → ℕ :=
  (List.range' 1 (h - 2)).foldl (fun dst y =>
    (List.range' 1 (w - 2)).foldl (fun dst x =>
      applyWrites dst (pixelWrites w src x y)) dst) src

/-- The full ordered write trace of one pass: the concatenation, in loop
order, of every interior pixel's writes.  It is a function of `src` alone —
a pass never reads a value it wrote in the same pass. -/
def passTrace (w h : ℕ) (src : ℕ → ℕ) : List (ℕ × ℕ) :=
  (List.range' 1 (h - 2)).flatMap (fun y =>
    (List.range' 1 (w - 2)).flatMap (fun x => pixelWrites w src x y))

/-- `expandDepthMap(imageData, radius)` (lines 673-702): `radius` dilation
passes in sequence, each consuming the previous pass's output (the source's
`src.set(dst)` at the end of each pass makes pass `r+1` read pass `r`'s
output; the initial `dst` is a copy of the input). -/
def expandDepthMap (w h : ℕ) (data : ℕ → ℕ) (radius : ℕ) : ℕ → ℕ :=
  (expandPass w h)^[radius] data

/-- Folding `applyWrites` over per-element write lists equals applying the
concatenated trace. -/
theorem foldl_applyWrites_bind {α : Type} (g : α → List (ℕ × ℕ)) (l : List α)
    (d : ℕ → ℕ) :
    l.foldl (fun d a => applyWrites d (g a)) d = applyWrites d (l.flatMap g) := by
  induction l generalizing d with
  | nil => simp [applyWrites]
  | cons a t ih =>
    simp only [List.foldl_cons, List.flatMap_cons, applyWrites, List.foldl_append] at ih ⊢
    exact ih _

/-- A pass is exactly its write trace applied to its input. -/
theorem expandPass_eq_applyWrites (w h : ℕ) (src : ℕ → ℕ) :
    expandPass w h src = applyWrites src (passTrace w h src) := by
  unfold expandPass passTrace
  simp only [foldl_applyWrites_bind]

/-- A single recorded write targets a red-channel (depth) index and carries a
value at least the previous pass's depth there. -/
theorem pixelWrites_sound (w : ℕ) (src : ℕ → ℕ) (x y : ℕ) :
    ∀ p ∈ pixelWrites w src x y, p.1 % 4 = 0 ∧ src p.1 ≤ p.2 := by
  intro p hp
  simp only [pixelWrites] at hp
  split at hp
  · simp at hp
  · simp only [List.mem_filterMap] at hp
    obtain ⟨o, _, ho⟩ := hp
    split at ho
    · rename_i hlt
      cases ho
      exact ⟨Nat.mul_mod_left _ 4, le_of_lt hlt⟩
    · cases ho

/-- Applying writes that only raise red-channel bytes preserves the
pointwise red-channel lower bound by the pass input. -/
theorem applyWrites_red_le (src : ℕ → ℕ) (ws : List (ℕ × ℕ))
    (hws : ∀ p ∈ ws, p.1 % 4 = 0 ∧ src p.1 ≤ p.2) :
    ∀ d : ℕ → ℕ, (∀ i, i % 4 = 0 → src i ≤ d i) →
      ∀ i, i % 4 = 0 → src i ≤ applyWrites d ws i := by
  induction ws with
  | nil => intro d hd i hi; exact hd i hi
  | cons p t ih =>
    intro d hd i hi
    simp only [applyWrites, List.foldl_cons] at *
    refine ih (fun q hq => hws q (List.mem_cons_of_mem _ hq)) _ ?_ i hi
    intro j hj
    obtain ⟨hp4, hple⟩ := hws p (List.mem_cons_self _ _)
    simp only [write3]
    split
    · rename_i hcase
      rcases hcase with h | h | h
      · subst h; exact hple
      · omega
      · omega
    · exact hd j hj

/-- One pass never decreases any red-channel (depth) byte. -/
theorem expandPass_red_le (w h : ℕ) (src : ℕ → ℕ) :
    ∀ i, i % 4 = 0 → src i ≤ expandPass w h src i := by
  rw [expandPass_eq_applyWrites]
  refine applyWrites_red_le src _ ?_ src (fun _ _ => le_refl _)
  intro p hp
  simp only [passTrace, List.mem_flatMap] at hp
  obtain ⟨y, _, x, _, hpx⟩ := hp
  exact pixelWrites_sound w src x y p hpx

/-- A concrete 3×3 test raster: depth 200 at the center pixel (flat byte
index 16), 0 elsewhere. -/
def testRaster : ℕ → ℕ := fun i => if i = 16 then 200 else 0

/-- C6: dilation at radius 0 is the identity on the raster (the returned
buffer is a pixel-identical copy of the input), and for every radius and
every pixel the output depth value (red-channel byte) is at least the input
depth value — depth values never decrease. -/
theorem expand_depth_map_monotone (w h : ℕ) (data : ℕ → ℕ) :
    expandDepthMap w h data 0 = data
    ∧ ∀ radius i, i % 4 = 0 → data i ≤ expandDepthMap w h data radius i := by
  constructor
  · rfl
  · intro radius
    induction radius with
    | zero => intro i _; exact le_refl _
    | succ r ih =>
      intro i hi
      have hstep := expandPass_red_le w h (expandDepthMap w h data r) i hi
      have : expandDepthMap w h data (r + 1) = expandPass w h (expandDepthMap w h data r) := by
        simp [expandDepthMap, Function.iterate_succ_apply']
      rw [this]
      exact le_trans (ih i hi) hstep

/-- Witness for C6 at a concrete 3×3 raster (center depth 200, rest 0),
radius 1, pixel index 0 (a red-channel index). -/
theorem expand_depth_map_monotone_witness :
    expandDepthMap 3 3 testRaster 0 = testRaster
    ∧ testRaster 0 ≤ expandDepthMap 3 3 testRaster 1 0 :=
  ⟨(expand_depth_map_monotone 3 3 testRaster).1,
   (expand_depth_map_monotone 3 3 testRaster).2 1 0 (by decide)⟩

/-- C7: each dilation pass implements the reference step.  For every interior
pixel `(x, y)` whose depth is at least 10 and every loop offset `(dy, dx)`
whose target's depth at the start of the pass is strictly lower than the
pixel's, a write of the pixel's depth into that neighbor appears in the
pass's write trace (the center offset can never satisfy the strict
inequality, so only the 8 proper neighbors are ever written); the pass's
output is exactly its write trace — computed only from the previous pass's
output `src`, never from values written in the same pass — applied to `src`
in loop order; and `expandDepthMap` is `radius` such passes in sequence. -/
theorem expand_pass_reference_step (w h radius : ℕ) (src data : ℕ → ℕ)
    (x y dy dx : ℕ)
    (hx1 : 1 ≤ x) (hx2 : x + 1 < w) (hy1 : 1 ≤ y) (hy2 : y + 1 < h)
    (hoff : (dy, dx) ∈ expandOffsets)
    (hcur : 10 ≤ src ((y * w + x) * 4))
    (hlow : src (((y + dy - 1) * w + (x + dx - 1)) * 4) < src ((y * w + x) * 4)) :
    ((((y + dy - 1) * w + (x + dx - 1)) * 4, src ((y * w + x) * 4))
        ∈ passTrace w h src)
    ∧ expandPass w h src = applyWrites src (passTrace w h src)
    ∧ expandDepthMap w h data radius = (expandPass w h)^[radius] data := by
  refine ⟨?_, expandPass_eq_applyWrites w h src, rfl⟩
  simp only [passTrace, List.mem_flatMap]
  refine ⟨y, ?_, x, ?_, ?_⟩
  · have : y ∈ List.range' 1 (h - 2) ↔ 1 ≤ y ∧ y < 1 + (h - 2) := by
      simp [List.mem_range'_1]
    exact this.mpr ⟨hy1, by omega⟩
  · have : x ∈ List.range' 1 (w - 2) ↔ 1 ≤ x ∧ x < 1 + (w - 2) := by
      simp [List.mem_range'_1]
    exact this.mpr ⟨hx1, by omega⟩
  · simp only [pixelWrites]
    rw [if_neg (by omega)]
    simp only [List.mem_filterMap]
    exact ⟨(dy, dx), hoff, by rw [if_pos hlow]⟩

/-- Witness for C7 at a concrete input: 3×3 raster with center depth 200 and
the top-left neighbor (offset `(0, 0)`, i.e. `dy = dx = -1`) at depth 0;
the write `(0, 200)` appears in the pass trace. -/
theorem expand_pass_reference_step_witness :
    (((0 : ℕ), (200 : ℕ)) ∈ passTrace 3 3 testRaster)
    ∧ expandPass 3 3 testRaster = applyWrites testRaster (passTrace 3 3 testRaster)
    ∧ expandDepthMap 3 3 testRaster 1 = (expandPass 3 3)^[1] testRaster :=
  expand_pass_reference_step 3 3 1 testRaster testRaster 1 1 0 0
    (by decide) (by decide) (by decide) (by decide) (by decide)
    (by decide) (by decide)

/-! ### Mesh geometry construction (`createGeometry`, parallax.js lines 770-820)

Vertex attribute buffers are modelled as functions from the row-major vertex
index `i` (row `iy = i / gridW`, column `ix = i % gridW`, rows from the top)
to the attribute value, which is how `THREE.PlaneGeometry` lays its
`position`/`uv` arrays out.  `normalsComputedFrom` records the position
buffer from which `computeVertexNormals()` (an external renderer call)
derived the normals — `some displacedPositions` means the normals were
recomputed after displacement, from the displaced vertices. -/

/-- A buffer geometry: the `parameters` of the generating plane, the vertex
grid dimensions, and the attribute buffers. -/
structure BufferGeometry where
  paramWidth : ℚ
  paramHeight : ℚ
  gridW : ℕ
  gridH : ℕ
  position : ℕ → Vec3
  uv : ℕ → Vec2
  depth : ℕ → ℚ
  normalsComputedFrom : Option (ℕ → Vec3)

/-- `THREE.PlaneGeometry(width, height, segX, segY)`: a regular grid of
`(segX+1) × (segY+1)` vertices, positions spanning `[-width/2, width/2] ×
[-height/2, height/2]` with rows от the top, and UVs `(ix/segX, 1 - iy/segY)`.
No `depth` attribute, and no normals recomputed yet. -/
def planeGeometry (w h : ℚ) (segX segY : ℕ) : BufferGeometry where
  paramWidth := w
  paramHeight := h
  gridW := segX + 1
  gridH := segY + 1
  position := fun i =>
    let ix := i % (segX + 1)
    let iy := i / (segX + 1)
    ⟨(ix : ℚ) * (w / segX) - w / 2, h / 2 - (iy : ℚ) * (h / segY), 0⟩
  uv := fun i =>
    let ix := i % (segX + 1)
    let iy := i / (segX + 1)
    ⟨(ix : ℚ) / segX, 1 - (iy : ℚ) / segY⟩
  depth := fun _ => 0
  normalsComputedFrom := none

/-- The depth sample of `createGeometry`'s first pass at a (clamped) UV
coordinate (lines 786-797): nearest-neighbor lookup
`x = floor(u * (width-1))`, `y = floor((1-v) * (height-1))` of the raster's
red channel at `(y * width + x) * 4`, divided by 255, guarded by
`pixelIndex + 3 < data.length` with `data.length = 4 * width * height`. -/
def sampleDepth (depthW depthH : ℕ) (data : ℕ → ℕ) (u v : ℚ) : ℚ :=
  let x := ⌊u * ((depthW : ℚ) - 1)⌋
  let y := ⌊(1 - v) * ((depthH : ℚ) - 1)⌋
  let pixelIndex := (y * depthW + x) * 4
  if pixelIndex + 3 < 4 * depthW * depthH then (data pixelIndex.toNat : ℚ) / 255
  else 0

/-- `createGeometry(width, height, depthData)` (lines 770-820): a plane of
`width-1 × height-1` segments with `parameters` `(imageAspect, 1)`; first
pass samples the depth raster at each vertex's UV clamped to `[0,1]` into the
`depth` attribute; second pass displaces each vertex: `z = depth * 1`
(`meshDepth` baseline), `scaleFactor = (4 - z)/4`, `x *= scaleFactor`,
`y *= scaleFactor`; finally `computeVertexNormals()` recomputes the normals
from the displaced positions. -/
def createGeometry (width height : ℕ) (depthW depthH : ℕ) (data : ℕ → ℕ) :
    BufferGeometry :=
  let imageAspect : ℚ := (depthW : ℚ) / (depthH : ℚ)
  let g := planeGeometry imageAspect 1 (width - 1) (height - 1)
  let depths : ℕ → ℚ := fun i =>
    let u := min 1 (max 0 (g.uv i).x)
    let v := min 1 (max 0 (g.uv i).y)
    sampleDepth depthW depthH data u v
  let displaced : ℕ → Vec3 := fun i =>
    let depthValue := depths i
    let z := depthValue * 1
    let scaleFactor := (4 - z) / 4
    ⟨(g.position i).x * scaleFactor, (g.position i).y * scaleFactor, z⟩
  { g with
    depth := depths
    position := displaced
    normalsComputedFrom := some displaced }

/-- C5: for every depth raster and grid size, every vertex of the
constructed geometry has: a `depth` attribute equal to the nearest-neighbor
red-channel sample of the raster at the vertex's UV clamped to `[0,1]`,
divided by 255, and lying in `[0,1]` (for byte-valued raster data); a
position equal to the original grid position with `x` and `y` multiplied by
`scaleFactor = (4 - z)/4` and `z` set to the depth value; and normals
recomputed from the displaced positions. -/
theorem create_geometry_vertex_spec (width height depthW depthH : ℕ)
    (data : ℕ → ℕ) (hdata : ∀ j, data j ≤ 255) (i : ℕ) :
    (createGeometry width height depthW depthH data).depth i
      = sampleDepth depthW depthH data
          (min 1 (max 0 ((planeGeometry ((depthW : ℚ) / (depthH : ℚ)) 1
            (width - 1) (height - 1)).uv i).x))
          (min 1 (max 0 ((planeGeometry ((depthW : ℚ) / (depthH : ℚ)) 1
            (width - 1) (height - 1)).uv i).y))
    ∧ 0 ≤ (createGeometry width height depthW depthH data).depth i
    ∧ (createGeometry width height depthW depthH data).depth i ≤ 1
    ∧ (createGeometry width height depthW depthH data).position i
      = ⟨((planeGeometry ((depthW : ℚ) / (depthH : ℚ)) 1
            (width - 1) (height - 1)).position i).x
            * ((4 - (createGeometry width height depthW depthH data).depth i) / 4),
          ((planeGeometry ((depthW : ℚ) / (depthH : ℚ)) 1
            (width - 1) (height - 1)).position i).y
            * ((4 - (createGeometry width height depthW depthH data).depth i) / 4),
          (createGeometry width height depthW depthH data).depth i⟩
    ∧ (createGeometry width height depthW depthH data).normalsComputedFrom
      = some (createGeometry width height depthW depthH data).position := by
  refine ⟨rfl, ?_, ?_, ?_, rfl⟩
  · simp only [createGeometry, sampleDepth]
    split
    · positivity
    · exact le_refl 0
  · simp only [createGeometry, sampleDepth]
    split
    · rw [div_le_one (by norm_num)]
      exact_mod_cast (by exact_mod_cast hdata _ : (data _ : ℚ) ≤ 255)
    · norm_num
  · simp only [createGeometry, mul_one]

/-- Witness for C5 at a concrete input: a 2×2 grid over a 2×2 raster whose
bytes are all 51 (depth 0.2), vertex 0. -/
theorem create_geometry_vertex_spec_witness :
    (createGeometry 2 2 2 2 (fun _ => 51)).depth 0
      = sampleDepth 2 2 (fun _ => 51)
          (min 1 (max 0 ((planeGeometry ((2 : ℚ) / (2 : ℚ)) 1 1 1).uv 0).x))
          (min 1 (max 0 ((planeGeometry ((2 : ℚ) / (2 : ℚ)) 1 1 1).uv 0).y))
    ∧ 0 ≤ (createGeometry 2 2 2 2 (fun _ => 51)).depth 0
    ∧ (createGeometry 2 2 2 2 (fun _ => 51)).depth 0 ≤ 1 :=
  have h := create_geometry_vertex_spec 2 2 2 2 (fun _ => 51)
    (fun j => by norm_num) 0
  ⟨h.1, h.2.1, h.2.2.1⟩

end Parallax

namespace EffectManager

/-! ### Effect loading and updating (`effect-manager.js`, class `EffectManager`)

JS exceptions are modelled with `Except String`: a module whose constructor
or `init()` throws is a module whose `initResult` is `Except.error`; an
effect whose `update(deltaTime)` throws is one whose `update` returns
`Except.error`.  Asynchronous loading (`Promise.all` over per-file promises)
resolves to the same ordered list of per-file outcomes whatever the
completion interleaving, so it is modelled by the ordered list of results. -/

/-- A discovered effect module file: its registry key (the file name with
`.js` stripped, as `effectFile.replace('.js', '')` computes it) and the
outcome of `new effectModule.default(...)` followed by
`await effectInstance.init()` — `Except.ok inst` for a successfully
initialized instance (identified by a numeric id), `Except.error msg` when
construction or `init()` throws. -/
structure EffectModule where
  key : String
  initResult : Except String ℕ

/-- The manager registries filled by `loadEffects()` (effect-manager.js
lines 16-18, 58-67): the `effects` map (insertion-ordered key/instance
pairs), the `effectInstances` array, and the `isInitialized` flag. -/
structure ManagerState where
  effects : List (String × ℕ)
  effectInstances : List ℕ
  isInitialized : Bool
deriving DecidableEq, Repr

/-- `loadOne(effectFile).catch(() => null)` (lines 36-54): a resolved
per-file outcome — `some (key, instance)` on success, `null` when the chain
threw (the error is logged and swallowed by the `.catch`). -/
def loadOne (m : EffectModule) : Option (String × ℕ) :=
  match m.initResult with
  | Except.ok inst => some (m.key, inst)
  | Except.error _ => none

/-- `loadEffects()` (lines 23-73): resolve every discovered module in
parallel to an outcome list (`Promise.all`), then push each non-null result
into the `effects` map and the `effectInstances` array in order, and set
`isInitialized`.  The function always resolves: every per-file failure was
converted to `null` by its own `.catch`. -/
def loadEffects (modules : List EffectModule) : ManagerState :=
  if modules.length = 0 then
    { effects := [], effectInstances := [], isInitialized := true }
  else
    let results := modules.map loadOne
    let st := results.foldl (fun (st : ManagerState) r =>
        match r with
        | some kv => { st with
            effects := st.effects ++ [kv]
            effectInstances := st.effectInstances ++ [kv.2] }
        | none => st)
      { effects := [], effectInstances := [], isInitialized := false }
    { st with isInitialized := true }

/-- Accumulator lemma for the `loadEffects` result fold. -/
theorem loadEffects_foldl (results : List (Option (String × ℕ)))
    (st : ManagerState) :
    results.foldl (fun (st : ManagerState) r =>
        match r with
        | some kv => { st with
            effects := st.effects ++ [kv]
            effectInstances := st.effectInstances ++ [kv.2] }
        | none => st) st
      = { st with
          effects := st.effects ++ results.reduceOption
          effectInstances := st.effectInstances ++ results.reduceOption.map Prod.snd } := by
  induction results generalizing st with
  | nil => simp [List.reduceOption]
  | cons r t ih =>
    cases r with
    | none => simp [List.foldl_cons, List.reduceOption_cons_of_none, ih]
    | some kv => simp [List.foldl_cons, List.reduceOption_cons_of_some, ih]

/-- A successful `loadOne` outcome carries the module's key and its
initialized instance. -/
theorem loadOne_eq_some {m : EffectModule} {kv : String × ℕ}
    (h : loadOne m = some kv) :
    kv.1 = m.key ∧ m.initResult = Except.ok kv.2 := by
  unfold loadOne at h
  split at h
  · rename_i inst hok
    cases h
    exact ⟨rfl, hok⟩
  · cases h

/-- C9: for every list of discovered modules, `loadEffects()` resolves (it
is a total function and sets `isInitialized`), its registries consist of
exactly the successfully initialized module entries in discovery order
(so every failing module is excluded and every non-failing module is
present), the instance of every non-failing module is in `effectInstances` and
its key/instance pair in the `effects` map, and — for distinct module keys —
no entry under the key of a failing module ever appears in the `effects` map, so
subsequent `update()` iteration never invokes a failed module. -/
theorem loadEffects_isolates_failures (modules : List EffectModule)
    (hkeys : (modules.map (fun m => m.key)).Nodup) :
    (loadEffects modules).isInitialized = true
    ∧ (loadEffects modules).effects = modules.filterMap loadOne
    ∧ (loadEffects modules).effectInstances
        = (modules.filterMap loadOne).map Prod.snd
    ∧ (∀ m ∈ modules, ∀ inst, m.initResult = Except.ok inst →
        inst ∈ (loadEffects modules).effectInstances
        ∧ (m.key, inst) ∈ (loadEffects modules).effects)
    ∧ (∀ m ∈ modules, ∀ msg, m.initResult = Except.error msg →
        ∀ inst, (m.key, inst) ∉ (loadEffects modules).effects) := by
  have heffects : (loadEffects modules).effects = modules.filterMap loadOne := by
    unfold loadEffects
    split
    · rename_i hlen
      rw [List.length_eq_zero] at hlen
      subst hlen
      rfl
    · dsimp only
      rw [loadEffects_foldl]
      simp [List.reduceOption, List.filterMap_map]
  have hinst : (loadEffects modules).effectInstances
      = (modules.filterMap loadOne).map Prod.snd := by
    unfold loadEffects
    split
    · rename_i hlen
      rw [List.length_eq_zero] at hlen
      subst hlen
      rfl
    · dsimp only
      rw [loadEffects_foldl]
      simp [List.reduceOption, List.filterMap_map]
  have hinitialized : (loadEffects modules).isInitialized = true := by
    unfold loadEffects
    split
    · rfl
    · dsimp only
  refine ⟨hinitialized, heffects, hinst, ?_, ?_⟩
  · intro m hm inst hok
    have hone : loadOne m = some (m.key, inst) := by
      simp [loadOne, hok]
    constructor
    · rw [hinst]
      exact List.mem_map_of_mem Prod.snd (List.mem_filterMap.mpr ⟨m, hm, hone⟩)
    · rw [heffects]
      exact List.mem_filterMap.mpr ⟨m, hm, hone⟩
  · intro m hm msg herr inst hcontra
    rw [heffects] at hcontra
    obtain ⟨m2, hm2, hone2⟩ := List.mem_filterMap.mp hcontra
    obtain ⟨hkey2, hok2⟩ := loadOne_eq_some hone2
    have hmm : m2 = m := List.inj_on_of_nodup_map hkeys hm2 hm hkey2.symm
    rw [hmm, herr] at hok2
    cases hok2

/-- Witness for C9 at a concrete input: three modules, the middle module throws
during `init()`; a sibling instance is loaded, the key of the failing module
never appears in the `effects` map, and loading still completes. -/
theorem loadEffects_isolates_failures_witness :
    (loadEffects
        [⟨"lanterns", Except.ok 1⟩,
          ⟨"water-ripple", Except.error "init failed"⟩,
          ⟨"snowmist", Except.ok 2⟩]).isInitialized = true
    ∧ ((1 : ℕ) ∈ (loadEffects
        [⟨"lanterns", Except.ok 1⟩,
          ⟨"water-ripple", Except.error "init failed"⟩,
          ⟨"snowmist", Except.ok 2⟩]).effectInstances)
    ∧ (("water-ripple", (7 : ℕ)) ∉ (loadEffects
        [⟨"lanterns", Except.ok 1⟩,
          ⟨"water-ripple", Except.error "init failed"⟩,
          ⟨"snowmist", Except.ok 2⟩]).effects) :=
  have h := loadEffects_isolates_failures
    [⟨"lanterns", Except.ok 1⟩,
      ⟨"water-ripple", Except.error "init failed"⟩,
      ⟨"snowmist", Except.ok 2⟩] (by decide)
  ⟨h.1,
   (h.2.2.2.1 ⟨"lanterns", Except.ok 1⟩ (List.mem_cons_self _ _) 1 rfl).1,
   h.2.2.2.2 ⟨"water-ripple", Except.error "init failed"⟩
     (List.mem_cons_of_mem _ (List.mem_cons_self _ _))
     "init failed" rfl 7⟩

/-- A loaded effect as seen by the per-frame `update` loop: whether it has a
callable `update` method (the `effect.update && typeof effect.update ===
'function'` guard), and the outcome of calling it (which may throw). -/
structure Effect where
  hasUpdate : Bool
  run : ℚ → Except String Unit

/-- The per-effect outcome recorded by one `update(deltaTime)` iteration
step: guard skipped the call, the call returned, or the call threw and the
surrounding `try/catch` logged and swallowed the error. -/
inductive UpdateOutcome
  | skipped
  | updated
  | errorCaught (msg : String)
deriving DecidableEq, Repr

/-- One iteration step of `update(deltaTime)`'s `forEach` body
(effect-manager.js lines 97-105): the method guard, the call, and the
`try/catch` that converts a throw into a logged, swallowed error. -/
def updateOne (dt : ℚ) (effect : Effect) : UpdateOutcome :=
  if effect.hasUpdate then
    match effect.run dt with
    | Except.ok _ => UpdateOutcome.updated
    | Except.error msg => UpdateOutcome.errorCaught msg
  else UpdateOutcome.skipped

/-- `update(deltaTime)` (lines 95-106): visit every effect currently in
`effectInstances`, in order, recording each outcome; because every body is
wrapped in its own `try/catch`, a throwing effect never stops the loop and
the method always returns normally. -/
def update (instances : List Effect) (dt : ℚ) : List UpdateOutcome :=
  instances.foldl (fun acc e => acc ++ [updateOne dt e]) []

/-- The `update` fold is the per-element map: each effect's outcome depends
only on that effect. -/
theorem update_eq_map (instances : List Effect) (dt : ℚ) :
    update instances dt = instances.map (updateOne dt) := by
  unfold update
  suffices h : ∀ acc : List UpdateOutcome,
      instances.foldl (fun acc e => acc ++ [updateOne dt e]) acc
        = acc ++ instances.map (updateOne dt) by
    simpa using h []
  induction instances with
  | nil => intro acc; simp
  | cons e t ih => intro acc; simp [List.foldl_cons, ih]

/-- C10: per-frame effect updates are mutually isolated: for every registry
split around a throwing effect and every `deltaTime`, `update` still visits
every effect in registry order — the effects before and after the faulty one
produce exactly the outcomes they produce on their own, the faulty effect
contributes a caught error, one outcome is recorded per registry entry, and
the call returns normally (it is a total function). -/
theorem update_isolates_failures (pre post : List Effect) (e : Effect)
    (dt : ℚ) (msg : String)
    (hhas : e.hasUpdate = true) (herr : e.run dt = Except.error msg) :
    update (pre ++ e :: post) dt
      = update pre dt ++ UpdateOutcome.errorCaught msg :: update post dt
    ∧ (update (pre ++ e :: post) dt).length = (pre ++ e :: post).length := by
  have hone : updateOne dt e = UpdateOutcome.errorCaught msg := by
    simp [updateOne, hhas, herr]
  constructor
  · rw [update_eq_map, update_eq_map, update_eq_map]
    simp [hone]
  · rw [update_eq_map]
    simp

/-- Witness for C10 at a concrete input: a healthy effect before and after a
throwing one; both siblings are updated and the faulty effect's error is
caught in place. -/
theorem update_isolates_failures_witness :
    update [⟨true, fun _ => Except.ok ()⟩,
        ⟨true, fun _ => Except.error "boom"⟩,
        ⟨true, fun _ => Except.ok ()⟩] 1
      = update [⟨true, fun _ => Except.ok ()⟩] 1
          ++ UpdateOutcome.errorCaught "boom" :: update [⟨true, fun _ => Except.ok ()⟩] 1
    ∧ (update [⟨true, fun _ => Except.ok ()⟩,
        ⟨true, fun _ => Except.error "boom"⟩,
        ⟨true, fun _ => Except.ok ()⟩] 1).length
      = ([⟨true, fun _ => Except.ok ()⟩,
        ⟨true, fun _ => Except.error "boom"⟩,
        ⟨true, fun _ => Except.ok ()⟩] : List Effect).length :=
  update_isolates_failures [⟨true, fun _ => Except.ok ()⟩]
    [⟨true, fun _ => Except.ok ()⟩] ⟨true, fun _ => Except.error "boom"⟩
    1 "boom" rfl rfl

end EffectManager
